import Mathlib

/-!
Verification development for the charticulator marker rendering core.

The definitions below are a shallow embedding of the repository's source:
`src/core/common/unique_id.ts` (markID / resetMarkID) and the SVG renderer
module (renderStyle, renderColor, path_commands, renderSVGPath,
renderTransform, getElementClassType, renderGraphicalElementSVG).
JavaScript numbers are modelled as rationals, JavaScript strings as Lean
strings, `undefined`/`null`-able values as `Option`, and the mutable
process-wide mark counter as an explicit state value threaded through the
functions that touch it.
-/

/-- JSON values as produced by the platform JSON parser (an external
collaborator of the repository: the source calls `JSON.parse` on the
opaque data-datum payload strings). -/
inductive JsonValue where
  | null : JsonValue
  | bool (b : Bool) : JsonValue
  | num (q : ℚ) : JsonValue
  | str (s : String) : JsonValue
  | arr (elems : List JsonValue) : JsonValue
  | obj (fields : List (String × JsonValue)) : JsonValue
deriving Repr, Inhabited

/-- The two brace characters, written by code point so that brace-pairing
inside character literals never arises. -/
def openBraceChar : Char := Char.ofNat 123

def closeBraceChar : Char := Char.ofNat 125

def isJsonWs (c : Char) : Bool := c = ' ' || c = '\t' || c = '\n' || c = '\r'

def skipWs (cs : List Char) : List Char := cs.dropWhile isJsonWs

def hexVal (c : Char) : Option Nat :=
  if '0' ≤ c ∧ c ≤ '9' then some (c.toNat - 48)
  else if 'a' ≤ c ∧ c ≤ 'f' then some (c.toNat - 87)
  else if 'A' ≤ c ∧ c ≤ 'F' then some (c.toNat - 55)
  else none

/-- Body of a JSON string literal (the opening quote already consumed):
returns the decoded string and the remaining input. -/
def parseStringBody : Nat → List Char → Option (String × List Char)
  | 0, _ => none
  | _fuel+1, [] => none
  | fuel+1, c :: rest =>
    if c = '"' then some ("", rest)
    else if c = '\\' then
      match rest with
      | [] => none
      | e :: rest2 =>
        let cont (ch : Char) (rs : List Char) : Option (String × List Char) :=
          match parseStringBody fuel rs with
          | some (s, r) => some (String.mk (ch :: s.toList), r)
          | none => none
        if e = '"' then cont '"' rest2
        else if e = '\\' then cont '\\' rest2
        else if e = '/' then cont '/' rest2
        else if e = 'n' then cont '\n' rest2
        else if e = 't' then cont '\t' rest2
        else if e = 'r' then cont '\r' rest2
        else if e = 'b' then cont (Char.ofNat 8) rest2
        else if e = 'f' then cont (Char.ofNat 12) rest2
        else if e = 'u' then
          match rest2 with
          | h1 :: h2 :: h3 :: h4 :: rest3 =>
            match hexVal h1, hexVal h2, hexVal h3, hexVal h4 with
            | some a, some b, some c2, some d =>
                cont (Char.ofNat (((a * 16 + b) * 16 + c2) * 16 + d)) rest3
            | _, _, _, _ => none
          | _ => none
        else none
    else
      match parseStringBody fuel rest with
      | some (s, r) => some (String.mk (c :: s.toList), r)
      | none => none

def takeDigits (cs : List Char) : List Char × List Char :=
  (cs.takeWhile Char.isDigit, cs.dropWhile Char.isDigit)

def digitsToNat (ds : List Char) : Nat :=
  ds.foldl (fun acc c => acc * 10 + (c.toNat - 48)) 0

/-- JSON numeric literal: optional sign, integer part, optional fraction,
optional exponent. -/
def parseNumber (cs : List Char) : Option (ℚ × List Char) :=
  let signed := match cs with
    | '-' :: r => (true, r)
    | _ => (false, cs)
  let neg := signed.1
  let cs1 := signed.2
  let ipD := takeDigits cs1
  if ipD.1.isEmpty then none
  else
    let base : ℚ := (digitsToNat ipD.1 : ℚ)
    let withFrac : ℚ × List Char :=
      match ipD.2 with
      | '.' :: r =>
        let fpD := takeDigits r
        if fpD.1.isEmpty then (base, ipD.2)
        else (base + (digitsToNat fpD.1 : ℚ) / ((10 : ℚ) ^ fpD.1.length), fpD.2)
      | _ => (base, ipD.2)
    let scaled : ℚ × List Char :=
      match withFrac.2 with
      | e :: r =>
        if e = 'e' ∨ e = 'E' then
          let es := match r with
            | '+' :: rr => (false, rr)
            | '-' :: rr => (true, rr)
            | _ => (false, r)
          let epD := takeDigits es.2
          if epD.1.isEmpty then (withFrac.1, withFrac.2)
          else if es.1 then (withFrac.1 / ((10 : ℚ) ^ digitsToNat epD.1), epD.2)
          else (withFrac.1 * ((10 : ℚ) ^ digitsToNat epD.1), epD.2)
        else (withFrac.1, withFrac.2)
      | _ => (withFrac.1, withFrac.2)
    some ((if neg then -scaled.1 else scaled.1), scaled.2)

mutual

/-- One JSON value, leading whitespace allowed. -/
def parseValue : Nat → List Char → Option (JsonValue × List Char)
  | 0, _ => none
  | fuel+1, cs =>
    match skipWs cs with
    | [] => none
    | c :: rest =>
      if c = '"' then
        match parseStringBody (rest.length + 1) rest with
        | some (s, r) => some (.str s, r)
        | none => none
      else if c = openBraceChar then
        let restW := skipWs rest
        match restW with
        | c2 :: r2 =>
          if c2 = closeBraceChar then some (.obj [], r2)
          else
            match parseMembers fuel restW with
            | some (fs, r) =>
              match skipWs r with
              | c3 :: r3 => if c3 = closeBraceChar then some (.obj fs, r3) else none
              | [] => none
            | none => none
        | [] => none
      else if c = '[' then
        let restW := skipWs rest
        match restW with
        | ']' :: r2 => some (.arr [], r2)
        | _ =>
          match parseElements fuel restW with
          | some (vs, r) =>
            match skipWs r with
            | ']' :: r3 => some (.arr vs, r3)
            | _ => none
          | none => none
      else if c = 'n' then
        match rest with
        | 'u' :: 'l' :: 'l' :: r => some (.null, r)
        | _ => none
      else if c = 't' then
        match rest with
        | 'r' :: 'u' :: 'e' :: r => some (.bool true, r)
        | _ => none
      else if c = 'f' then
        match rest with
        | 'a' :: 'l' :: 's' :: 'e' :: r => some (.bool false, r)
        | _ => none
      else if c = '-' ∨ c.isDigit then
        match parseNumber (c :: rest) with
        | some (q, r) => some (.num q, r)
        | none => none
      else none

/-- Comma-separated array elements (closing bracket left for the caller). -/
def parseElements : Nat → List Char → Option (List JsonValue × List Char)
  | 0, _ => none
  | fuel+1, cs =>
    match parseValue fuel cs with
    | none => none
    | some (v, r) =>
      match skipWs r with
      | ',' :: r2 =>
        match parseElements fuel r2 with
        | some (vs, r3) => some (v :: vs, r3)
        | none => none
      | r2 => some ([v], r2)

/-- Comma-separated object members (closing brace left for the caller). -/
def parseMembers : Nat → List Char → Option (List (String × JsonValue) × List Char)
  | 0, _ => none
  | fuel+1, cs =>
    match skipWs cs with
    | '"' :: r =>
      match parseStringBody (r.length + 1) r with
      | some (k, r2) =>
        match skipWs r2 with
        | ':' :: r3 =>
          match parseValue fuel r3 with
          | some (v, r4) =>
            match skipWs r4 with
            | ',' :: r5 =>
              match parseMembers fuel r5 with
              | some (fs, r6) => some ((k, v) :: fs, r6)
              | none => none
            | r5 => some ([(k, v)], r5)
          | none => none
        | _ => none
      | none => none
    | _ => none

end

/-- Modelled from the spec: the repository treats the data-datum payload as
"opaque externally-produced JSON" and decodes it with the platform JSON
parser. The platform parser (not repository code) is modelled as a standard
recursive-descent JSON parser; parse failure is `none`. -/
def JSON_parse (s : String) : Option JsonValue :=
  let cs := s.toList
  match parseValue (cs.length + 1) cs with
  | some (v, rest) => if (skipWs rest).isEmpty then some v else none
  | none => none

/-- First-match lookup of an object field; on a non-object JavaScript value a
missing property reads as `undefined` (`none`). Mirrors `tum._TYPE` /
`data._MARKID` property reads in the source. -/
def lookupField (v : JsonValue) (k : String) : Option JsonValue :=
  match v with
  | .obj fs => fs.lookup k
  | _ => none

/-- JavaScript truthiness of a possibly-undefined value
(`undefined`, `null`, `false`, `0`, and `""` are falsy). -/
def truthy : Option JsonValue → Bool
  | none => false
  | some .null => false
  | some (.bool b) => b
  | some (.num q) => decide (q ≠ 0)
  | some (.str s) => decide (s ≠ "")
  | some (.arr _) => true
  | some (.obj _) => true

/-- The source's `tum._TYPE == "axis"` comparisons: JavaScript loose equality
of a possibly-undefined field value against a string literal, which holds
exactly when the field is that string (the tags compared are string tags). -/
def eqTag (v : Option JsonValue) (t : String) : Bool :=
  match v with
  | some (.str s) => s = t
  | _ => false

/-- JavaScript number-to-string conversion, modelled as exact rational
rendering (integers render as their decimal digits). -/
def jsNumToString (q : ℚ) : String :=
  if q.den = 1 then toString q.num else toString q.num ++ "/" ++ toString q.den

/-- JavaScript string coercion of a JSON value, as used when a non-string
value ends up as an object key (`pointer[namespace]`). -/
def jsToString : JsonValue → String
  | .null => "null"
  | .bool true => "true"
  | .bool false => "false"
  | .num q => jsNumToString q
  | .str s => s
  | .arr l => String.intercalate "," (l.map fun v =>
      match v with
      | .str s => s
      | .null => ""
      | .bool true => "true"
      | .bool false => "false"
      | .num q => jsNumToString q
      | _ => "")
  | .obj _ => "[object Object]"

/-- The source's array unwrap plus the subsequent property access:
`if (tum instanceof Array) tum = tum[0]` followed by reading `tum._TYPE`.
Reading a property of `undefined` (empty array) or `null` throws a
TypeError, which the enclosing `try` catches; both are `none` here. -/
def unwrapDatum (v : JsonValue) : Option JsonValue :=
  match v with
  | .arr l =>
    match l.head? with
    | some .null => none
    | some x => some x
    | none => none
  | .null => none
  | x => some x

/-- The process-wide `pointer` map of `unique_id.ts`, as an insertion-ordered
association list (JavaScript object keys preserve insertion order, which
`Object.keys(pointer).length` depends on). -/
abbrev Pointer := List (String × Nat)

/-- The fresh `pointer = {}` state. -/
def freshPointer : Pointer := []

/-- `resetMarkID` from `unique_id.ts`: the counter map is replaced by `{}`. -/
def resetMarkID (_p : Pointer) : Pointer := freshPointer

/-- Overwrite an existing key in place, preserving key order. -/
def pointerSet (p : Pointer) (ns : String) (v : Nat) : Pointer :=
  p.map fun kv => if kv.1 = ns then (ns, v) else kv

/-- The counter branch of `markID`:
`if (pointer[namespace] === undefined) pointer[namespace] = Object.keys(pointer).length * 1000 + 1;
return "mark" + pointer[namespace]++;`. -/
def issueMark (ns : String) (p : Pointer) : Option String × Pointer :=
  match List.lookup ns p with
  | some n => (some ("mark" ++ toString n), pointerSet p ns (n + 1))
  | none =>
    let n := p.length * 1000 + 1
    (some ("mark" ++ toString n), p ++ [(ns, n + 1)])

/-- `const namespace = tum._TYPE || "base-mark-group"`. -/
def namespaceOf (ty : Option JsonValue) : String :=
  match ty with
  | some v => if truthy (some v) then jsToString v else "base-mark-group"
  | none => "base-mark-group"

/-- `markID` from `src/core/common/unique_id.ts`. The returned identifier is
`none` for JavaScript `null`; the mutated counter map is returned alongside. -/
def markID (datum : String) (p : Pointer) : Option String × Pointer :=
  if datum = "" then (none, p)
  else
    match JSON_parse datum with
    | none => (some datum, p)
    | some v =>
      match unwrapDatum v with
      | none => (some datum, p)
      | some tum =>
        let ty := lookupField tum "_TYPE"
        if eqTag ty "axis" || eqTag ty "nested-chart" then (none, p)
        else issueMark (namespaceOf ty) p

/-- JavaScript `String.prototype.startsWith` (a platform function), modelled
over the character list so that it evaluates on concrete inputs. -/
def strStartsWith (s pre : String) : Bool := pre.toList.isPrefixOf s.toList

/-- The `_MARKID` entry of the classification list: the raw field value as it
ends up in the returned array (an absent field joins as the empty string). -/
def markidEntry (data : JsonValue) : String :=
  match lookupField data "_MARKID" with
  | some v => jsToString v
  | none => ""

/-- `getElementClassType` from the renderer module. A truthy non-string
`_TYPE` makes `.startsWith` throw, which the `catch` turns into `[]`; a falsy
`_TYPE` falls through to the untagged `["mark"]` case. -/
def getElementClassType (datum : String) : List String :=
  match JSON_parse datum with
  | none => []
  | some v =>
    match unwrapDatum v with
    | none => []
    | some data =>
      match lookupField data "_TYPE" with
      | some (.str s) =>
        if s = "" then ["mark"]
        else if strStartsWith s "axis-" || strStartsWith s "legend-" then ["mark", s]
        else if s = "nested-chart" || s = "axis" || s = "legend" then [s]
        else ["mark", markidEntry data, s]
      | some v2 => if truthy (some v2) then [] else ["mark"]
      | none => ["mark"]

/-- The descriptor's type tag as compared by `markID`: the string value of
`_TYPE` after a successful parse and array unwrap, `none` otherwise. -/
def payloadTag (s : String) : Option String :=
  if s = "" then none
  else
    match JSON_parse s with
    | none => none
    | some v =>
      match unwrapDatum v with
      | none => none
      | some tum =>
        match lookupField tum "_TYPE" with
        | some (.str t) => some t
        | _ => none

/-- The namespace `markID` files a payload under when it reaches the counter
branch (`some`), and `none` when `markID` instead returns `null` or the raw
payload. -/
def markIDNamespace (s : String) : Option String :=
  if s = "" then none
  else
    match JSON_parse s with
    | none => none
    | some v =>
      match unwrapDatum v with
      | none => none
      | some tum =>
        let ty := lookupField tum "_TYPE"
        if eqTag ty "axis" || eqTag ty "nested-chart" then none
        else some (namespaceOf ty)

/-- Device color record (`Color` from the core). -/
structure Color where
  r : ℚ
  g : ℚ
  b : ℚ
deriving Repr, DecidableEq

/-- `NumberModifier` from the core graphics module. -/
structure NumberModifier where
  set : Option ℚ := none
  multiply : Option ℚ := none
  add : Option ℚ := none
  pow : Option ℚ := none
deriving Repr

/-- `ColorFilter`: optional saturation and lightness modifiers. -/
structure ColorFilter where
  saturation : Option NumberModifier := none
  lightness : Option NumberModifier := none
deriving Repr

/-- Modelled from the spec: the device-to-Lab converter obtained from
`getColorConverter("sRGB", "lab")` — repository code that is not under
`src/`. The real conversion involves cube roots; it is modelled as an
embedding of the channel triple, which no verified claim depends on. -/
def srgb2lab (r g b : ℚ) : ℚ × ℚ × ℚ := (r, g, b)

/-- Modelled from the spec: the Lab-to-device converter obtained from
`getColorConverter("lab", "sRGB")` — repository code that is not under
`src/`; modelled as the matching projection of the triple. -/
def lab2srgb (l a b : ℚ) : ℚ × ℚ × ℚ := (l, a, b)

/-- Modelled from the spec: `Math.sqrt`, a real-valued platform primitive
outside the repository. It is modelled through `Nat.sqrt` on numerator and
denominator; the model is exact at 0 and positive on positive input, which
is all the embedded control flow (`s == 0`) observes. A negative input gives
NaN in JavaScript and is modelled as 0. -/
def mathSqrt (q : ℚ) : ℚ :=
  if q ≤ 0 then 0 else (Nat.sqrt q.num.toNat : ℚ) / (Nat.sqrt q.den : ℚ)

/-- Modelled from the spec: `Math.pow`, a real-valued platform primitive
outside the repository; exact for integer exponents and modelled as 0 for
fractional exponents (irrational in general). No verified claim depends on
its values. -/
def mathPow (b e : ℚ) : ℚ := if e.den = 1 then b ^ e.num else 0

/-- `modifyNumber` from the renderer module: `set` short-circuits; otherwise
`multiply`, `add` and `pow` apply in that fixed order, each step skipped
when its field is absent. -/
def modifyNumber (value : ℚ) (modifier : NumberModifier) : ℚ :=
  match modifier.set with
  | some v => v
  | none =>
    let value := match modifier.multiply with
      | some m => value * m
      | none => value
    let value := match modifier.add with
      | some a => value + a
      | none => value
    match modifier.pow with
    | some p => mathPow value p
    | none => value

/-- `applyColorFilter` from the renderer module: convert to Lab; when a
saturation modifier is present, scale the chroma components by
`modifyNumber(s)/s` with the zero-chroma guard; when a lightness modifier is
present, normalize L by 100, modify, and rescale; convert back. Only the
color converters and the `Math` primitives are modelled from the spec. -/
def applyColorFilter (color : Color) (colorFilter : ColorFilter) : Color :=
  let lab := srgb2lab color.r color.g color.b
  let L := lab.1
  let A := lab.2.1
  let B := lab.2.2
  let AB : ℚ × ℚ :=
    match colorFilter.saturation with
    | some sat =>
      let s := mathSqrt (A * A + B * B)
      let sPrime := modifyNumber s sat
      if s = 0 then (0, 0) else (A * (sPrime / s), B * (sPrime / s))
    | none => (A, B)
  let L :=
    match colorFilter.lightness with
    | some light => modifyNumber (L / 100) light * 100
    | none => L
  let rgb := lab2srgb L AB.1 AB.2
  { r := rgb.1, g := rgb.2.1, b := rgb.2.2 }

/-- JavaScript `toFixed(0)`: round to the nearest integer (ties away from
zero), computed on the numerator and denominator directly with integer
division so that it evaluates on concrete channel values. -/
def jsToFixed0 (q : ℚ) : Int :=
  if 0 ≤ q.num then (2 * q.num + (q.den : Int)) / (2 * (q.den : Int))
  else -((2 * (-q.num) + (q.den : Int)) / (2 * (q.den : Int)))

/-- `renderColor` from the renderer module: a missing color falls back to
black, otherwise the (possibly filtered) channels are formatted. -/
def renderColor (color : Option Color) (colorFilter : Option ColorFilter) : String :=
  match color with
  | none => "rgb(0,0,0)"
  | some c =>
    let c := match colorFilter with
      | some f => applyColorFilter c f
      | none => c
    "rgb(" ++ toString (jsToFixed0 c.r) ++ "," ++ toString (jsToFixed0 c.g) ++ ","
      ++ toString (jsToFixed0 c.b) ++ ")"

/-- `Graphics.Style` as consumed by `renderStyle` (all fields optional). -/
structure Style where
  strokeColor : Option Color := none
  strokeOpacity : Option ℚ := none
  strokeWidth : Option ℚ := none
  strokeLinecap : Option String := none
  strokeLinejoin : Option String := none
  fillColor : Option Color := none
  fillOpacity : Option ℚ := none
  textAnchor : Option String := none
  opacity : Option ℚ := none
  colorFilter : Option ColorFilter := none
deriving Repr

/-- The resolved CSS property bag produced by `renderStyle` plus the
properties the renderer assigns afterwards (`cursor`, `pointerEvents`,
`fontFamily`, `fontSize`). `renderStyle(null)` returns the empty object, so
every field is optional. -/
structure ResolvedStyle where
  stroke : Option String := none
  strokeOpacity : Option ℚ := none
  strokeWidth : Option ℚ := none
  strokeLinecap : Option String := none
  strokeLinejoin : Option String := none
  fill : Option String := none
  fillOpacity : Option ℚ := none
  textAnchor : Option String := none
  opacity : Option ℚ := none
  cursor : Option String := none
  pointerEvents : Option String := none
  fontFamily : Option String := none
  fontSize : Option String := none
deriving Repr, DecidableEq

/-- `renderStyle` from the renderer module. -/
def renderStyle (style : Option Style) : ResolvedStyle :=
  match style with
  | none => {}
  | some s =>
    { stroke := some (if s.strokeColor.isSome
        then renderColor s.strokeColor s.colorFilter else "none")
      strokeOpacity := some (s.strokeOpacity.getD 1)
      strokeWidth := some (s.strokeWidth.getD 1)
      strokeLinecap := some (s.strokeLinecap.getD "round")
      strokeLinejoin := some (s.strokeLinejoin.getD "round")
      fill := some (if s.fillColor.isSome
        then renderColor s.fillColor s.colorFilter else "none")
      fillOpacity := some (s.fillOpacity.getD 1)
      textAnchor := some (s.textAnchor.getD "start")
      opacity := some (s.opacity.getD 1) }

/-- Modelled from the spec: `toSVGNumber` (from `../utils`, not under `src/`)
is a deterministic, compact numeric formatter; modelled as exact rational
rendering. Which arguments it receives — in particular which are negated —
is decided by the source embedded below, not by this formatter. -/
def toSVGNumber (q : ℚ) : String := jsNumToString q

/-- A path command as accumulated by the path maker: a command letter and
its numeric arguments. -/
structure PathCmd where
  cmd : String
  args : List ℚ
deriving Repr, DecidableEq

/-- `args[i]` of a command's argument array (the source always supplies the
full arity, so the JavaScript `undefined` out-of-range case never arises). -/
def argAt (args : List ℚ) (i : Nat) : ℚ := args.getD i 0

/-- The `path_commands` table of the renderer module: each serializer negates
exactly the Y-valued arguments of its command. Unknown command letters throw
in the source (lookup of `undefined`), modelled as `none`. -/
def path_commands (cmd : String) (args : List ℚ) : Option String :=
  if cmd = "M" then
    some ("M " ++ toSVGNumber (argAt args 0) ++ "," ++ toSVGNumber (-(argAt args 1)))
  else if cmd = "L" then
    some ("L " ++ toSVGNumber (argAt args 0) ++ "," ++ toSVGNumber (-(argAt args 1)))
  else if cmd = "C" then
    some ("C " ++ toSVGNumber (argAt args 0) ++ "," ++ toSVGNumber (-(argAt args 1)) ++ ","
      ++ toSVGNumber (argAt args 2) ++ "," ++ toSVGNumber (-(argAt args 3)) ++ ","
      ++ toSVGNumber (argAt args 4) ++ "," ++ toSVGNumber (-(argAt args 5)))
  else if cmd = "Q" then
    some ("Q " ++ toSVGNumber (argAt args 0) ++ "," ++ toSVGNumber (-(argAt args 1)) ++ ","
      ++ toSVGNumber (argAt args 2) ++ "," ++ toSVGNumber (-(argAt args 3)))
  else if cmd = "A" then
    some ("A " ++ toSVGNumber (argAt args 0) ++ "," ++ toSVGNumber (argAt args 1) ++ ","
      ++ toSVGNumber (argAt args 2) ++ "," ++ toSVGNumber (argAt args 3) ++ ","
      ++ toSVGNumber (argAt args 4) ++ "," ++ toSVGNumber (argAt args 5) ++ ","
      ++ toSVGNumber (-(argAt args 6)))
  else if cmd = "Z" then some "Z"
  else none

/-- `renderSVGPath`: serialize each command and join with single spaces;
`none` when any command letter is outside the table. -/
def renderSVGPath (cmds : List PathCmd) : Option String :=
  match cmds.mapM (fun x => path_commands x.cmd x.args) with
  | some parts => some (String.intercalate " " parts)
  | none => none

/-- `Graphics.RigidTransform`. -/
structure RigidTransform where
  x : ℚ
  y : ℚ
  angle : ℚ
deriving Repr, DecidableEq

/-- `renderTransform` from the renderer module. The `1e-7` epsilon of the
source (a floating-point literal) is modelled as the exact rational. -/
def renderTransform (transform : Option RigidTransform) : Option String :=
  match transform with
  | none => none
  | some t =>
    if |t.angle| < 1 / 10000000 then
      some ("translate(" ++ toSVGNumber t.x ++ "," ++ toSVGNumber (-t.y) ++ ")")
    else
      some ("translate(" ++ toSVGNumber t.x ++ "," ++ toSVGNumber (-t.y)
        ++ ") rotate(" ++ toSVGNumber (-t.angle) ++ ")")

/-- Modelled from the spec: `makePath`/`PathMaker` (core graphics, not under
`src/`) accumulates path commands; `moveTo`, `lineTo`, `arcTo`, `closePath`
append an `M`/`L`/`A`/`Z` command with the given arguments in order. -/
def pmMoveTo (p : List PathCmd) (x y : ℚ) : List PathCmd := p ++ [⟨"M", [x, y]⟩]

def pmLineTo (p : List PathCmd) (x y : ℚ) : List PathCmd := p ++ [⟨"L", [x, y]⟩]

def pmArcTo (p : List PathCmd) (rx ry rotation largeArc sweep x y : ℚ) : List PathCmd :=
  p ++ [⟨"A", [rx, ry, rotation, largeArc, sweep, x, y]⟩]

def pmClosePath (p : List PathCmd) : List PathCmd := p ++ [⟨"Z", []⟩]

/-- The `rect` case of the renderer: moveTo(x1,y1), lineTo(x1,y2),
lineTo(x2,y2), lineTo(x2,y1), closePath. -/
def rectPathCmds (x1 y1 x2 y2 : ℚ) : List PathCmd :=
  pmClosePath (pmLineTo (pmLineTo (pmLineTo (pmMoveTo [] x1 y1) x1 y2) x2 y2) x2 y1)

/-- The `circle` case: two half-circle arcs. -/
def circlePathCmds (cx cy r : ℚ) : List PathCmd :=
  pmClosePath (pmArcTo (pmArcTo (pmMoveTo [] (cx - r) cy)
    r r 0 1 0 (cx + r) cy) r r 0 1 0 (cx - r) cy)

/-- The `ellipse` case: center-based two-arc construction. -/
def ellipsePathCmds (x1 y1 x2 y2 : ℚ) : List PathCmd :=
  pmClosePath (pmArcTo (pmArcTo (pmMoveTo [] x1 ((y1 + y2) / 2))
    (|x1 - x2| / 2) (|y1 - y2| / 2) 0 1 0 x2 ((y1 + y2) / 2))
    (|x1 - x2| / 2) (|y1 - y2| / 2) 0 1 0 x1 ((y1 + y2) / 2))

/-- The `line` case: moveTo, lineTo (no closePath). -/
def linePathCmds (x1 y1 x2 y2 : ℚ) : List PathCmd :=
  pmLineTo (pmMoveTo [] x1 y1) x2 y2

/-- The `polygon` case: moveTo on the first point (origin when empty), then
lineTo for each subsequent point, then closePath. -/
def polygonPathCmds (points : List (ℚ × ℚ)) : List PathCmd :=
  let p0 := points.headD (0, 0)
  pmClosePath ((points.drop 1).foldl (fun acc q => pmLineTo acc q.1 q.2) (pmMoveTo [] p0.1 p0.2))

/-- `selectable.plotSegment` as used by the chart-container case. -/
structure PlotSegmentRef where
  table : String
deriving Repr, DecidableEq

/-- The `selectable` descriptor of a graphical element. Row indices are
natural numbers; an out-of-range JavaScript array read yields `undefined`,
modelled below by `List.getD` with the in-bounds case characterized in the
theorems. -/
structure Selectable where
  plotSegment : PlotSegmentRef
  glyphIndex : Nat
  rowIndices : List Nat
deriving Repr, DecidableEq

/-- The scene-graph node (`Graphics.Element` tagged union). Every variant
carries its optional style, optional data-datum payload and optional
selectable descriptor, then its geometry. -/
inductive GElement where
  | rect (style : Option Style) (dataDatum : Option String)
      (selectable : Option Selectable) (x1 y1 x2 y2 : ℚ)
  | circle (style : Option Style) (dataDatum : Option String)
      (selectable : Option Selectable) (cx cy r : ℚ)
  | ellipse (style : Option Style) (dataDatum : Option String)
      (selectable : Option Selectable) (x1 y1 x2 y2 : ℚ)
  | line (style : Option Style) (dataDatum : Option String)
      (selectable : Option Selectable) (x1 y1 x2 y2 : ℚ)
  | polygon (style : Option Style) (dataDatum : Option String)
      (selectable : Option Selectable) (points : List (ℚ × ℚ))
  | pathElem (style : Option Style) (dataDatum : Option String)
      (selectable : Option Selectable) (cmds : List PathCmd)
  | text (style : Option Style) (dataDatum : Option String)
      (selectable : Option Selectable) (cx cy : ℚ)
      (content fontFamily : String) (fontSize : ℚ)
  | textOnPath (style : Option Style) (dataDatum : Option String)
      (selectable : Option Selectable) (pathCmds : List PathCmd)
      (content align fontFamily : String) (fontSize : ℚ)
  | image (style : Option Style) (dataDatum : Option String)
      (selectable : Option Selectable) (src : String)
      (x y width height : ℚ) (mode : Option String)
  | chartContainer (style : Option Style) (dataDatum : Option String)
      (selectable : Selectable) (width height : ℚ)
  | group (style : Option Style) (dataDatum : Option String)
      (selectable : Option Selectable) (transform : Option RigidTransform)
      (key : Option String) (elements : List GElement)

def GElement.elStyle : GElement → Option Style
  | .rect s _ _ _ _ _ _ => s
  | .circle s _ _ _ _ _ => s
  | .ellipse s _ _ _ _ _ _ => s
  | .line s _ _ _ _ _ _ => s
  | .polygon s _ _ _ => s
  | .pathElem s _ _ _ => s
  | .text s _ _ _ _ _ _ _ => s
  | .textOnPath s _ _ _ _ _ _ _ => s
  | .image s _ _ _ _ _ _ _ _ => s
  | .chartContainer s _ _ _ _ => s
  | .group s _ _ _ _ _ => s

def GElement.elDatum : GElement → Option String
  | .rect _ d _ _ _ _ _ => d
  | .circle _ d _ _ _ _ => d
  | .ellipse _ d _ _ _ _ _ => d
  | .line _ d _ _ _ _ _ => d
  | .polygon _ d _ _ => d
  | .pathElem _ d _ _ => d
  | .text _ d _ _ _ _ _ _ => d
  | .textOnPath _ d _ _ _ _ _ _ => d
  | .image _ d _ _ _ _ _ _ _ => d
  | .chartContainer _ d _ _ _ => d
  | .group _ d _ _ _ _ => d

def GElement.elSelectable : GElement → Option Selectable
  | .rect _ _ sel _ _ _ _ => sel
  | .circle _ _ sel _ _ _ => sel
  | .ellipse _ _ sel _ _ _ _ => sel
  | .line _ _ sel _ _ _ _ => sel
  | .polygon _ _ sel _ => sel
  | .pathElem _ _ sel _ => sel
  | .text _ _ sel _ _ _ _ _ => sel
  | .textOnPath _ _ sel _ _ _ _ _ => sel
  | .image _ _ sel _ _ _ _ _ _ => sel
  | .chartContainer _ _ sel _ _ => some sel
  | .group _ _ sel _ _ _ => sel

/-- Render options. The three event callbacks are wired through the event
routing closures, which attach no presentational attribute; the derived
chart-container selection and handler adapters are embedded standalone as
`mkSubSelection` and `convertEventHandler` below. -/
structure RenderOptions where
  noStyle : Bool := false
  styleOverride : Option Style := none
  className : Option String := none
  key : Option String := none
  chartComponentSync : Bool := false
  externalResourceResolver : Option (String → String) := none
  selection : Option (String → List Nat → Bool) := none

/-- JavaScript `a || b` on two optional object values (objects are truthy). -/
def jsOrStyle (a b : Option Style) : Option Style :=
  match a with
  | some x => some x
  | none => b

/-- JavaScript `a || b` on two optional strings (the empty string is falsy). -/
def jsOrStr (a b : Option String) : Option String :=
  match a with
  | some s => if s = "" then b else some s
  | none => b

/-- JavaScript truthiness of an optional string. -/
def strTruthy : Option String → Bool
  | none => false
  | some s => decide (s ≠ "")

/-- The class attribute of a shape/text/image node:
`[...([options.className] || []), ...(datum ? getElementClassType(datum) : [])].join(" ")`
(a missing className joins as the empty string). -/
def shapeClassName (options : RenderOptions) (datum : Option String) : String :=
  String.intercalate " " ([options.className.getD ""] ++
    (if strTruthy datum then getElementClassType (datum.getD "") else []))

/-- The data-datum attribute of a shape/text/image node:
`element["data-datum"] || null`. -/
def shapeDatum (datum : Option String) : Option String :=
  match datum with
  | some s => if s = "" then none else some s
  | none => none

/-- The data-datum attribute of a group node: kept only when the payload is
truthy and starts with a brace or a bracket. -/
def groupDataDatum (datum : Option String) : Option String :=
  match datum with
  | some s => if s ≠ "" ∧ (strStartsWith s "\x7b" ∨ strStartsWith s "[") then some s else none
  | none => none

/-- The image fit-mode mapping: letterbox to "meet", stretch to "none",
anything else keeps the initial null. -/
def imageAspect (mode : Option String) : Option String :=
  if mode = some "letterbox" then some "meet"
  else if mode = some "stretch" then some "none"
  else none

/-- The options a group passes to each child: a positional key `m<index>`
plus the shared sync flag, resource resolver, event callbacks and selection;
notably no className, no styleOverride and no noStyle. -/
def childOptions (options : RenderOptions) (index : Nat) : RenderOptions :=
  { key := some ("m" ++ toString index)
    chartComponentSync := options.chartComponentSync
    externalResourceResolver := options.externalResourceResolver
    selection := options.selection }

/-- The output node tree. `textPair` is the `<g key>{outline}{fillPass}</g>`
wrapper emitted by the stroked-text two-pass case. -/
inductive SVGNode where
  | path (key id : Option String) (className : String)
      (style : Option ResolvedStyle) (d : Option String) (dataDatum : Option String)
  | text (key id : Option String) (className : String)
      (style : Option ResolvedStyle) (x y : ℚ) (dataDatum : Option String)
      (content : String)
  | textPair (key : Option String) (outline fillPass : SVGNode)
  | textOnPath (style : Option ResolvedStyle) (cmds : List PathCmd)
      (content align : String)
  | image (key id : Option String) (className : String)
      (style : Option ResolvedStyle) (preserveAspectRatio : Option String)
      (href : String) (x y width height : ℚ) (dataDatum : Option String)
  | chartContainer (key : Option String) (width height : ℚ) (sync : Bool)
  | g (transform key : Option String) (opacity : ℚ) (id : Option String)
      (className : String) (dataDatum : Option String)
      (children : List (Option SVGNode))
deriving Repr

mutual

/-- `renderGraphicalElementSVG` with the mark counter threaded explicitly and
a recursion fuel (strictly larger than the nesting depth; every claim
instantiates it accordingly). A missing element renders to nothing. Setting
a property of a null resolved style (noStyle combined with a selectable
element, or with a text / text-on-path node) throws a TypeError in the
source; that crash is modelled as an absent output. -/
def renderGraphicalElementSVG :
    Nat → Option GElement → RenderOptions → Pointer → Option SVGNode × Pointer
  | 0, _, _, p => (none, p)
  | _+1, none, _, p => (none, p)
  | fuel+1, some element, options, p =>
    let styleOpt : Option ResolvedStyle :=
      if options.noStyle then none
      else some (renderStyle (jsOrStyle options.styleOverride element.elStyle))
    if element.elSelectable.isSome && styleOpt.isNone then (none, p)
    else
      let styleOpt : Option ResolvedStyle :=
        match element.elSelectable with
        | some _ => styleOpt.map fun s =>
            { s with cursor := some "pointer", pointerEvents := some "all" }
        | none => styleOpt
      match element with
      | .rect _ datum _ x1 y1 x2 y2 =>
        let r := markID (datum.getD "") p
        (some (.path options.key r.1 (shapeClassName options datum) styleOpt
          (renderSVGPath (rectPathCmds x1 y1 x2 y2)) (shapeDatum datum)), r.2)
      | .circle _ datum _ cx cy rad =>
        let r := markID (datum.getD "") p
        (some (.path options.key r.1 (shapeClassName options datum) styleOpt
          (renderSVGPath (circlePathCmds cx cy rad)) (shapeDatum datum)), r.2)
      | .ellipse _ datum _ x1 y1 x2 y2 =>
        let r := markID (datum.getD "") p
        (some (.path options.key r.1 (shapeClassName options datum) styleOpt
          (renderSVGPath (ellipsePathCmds x1 y1 x2 y2)) (shapeDatum datum)), r.2)
      | .line _ datum _ x1 y1 x2 y2 =>
        let r := markID (datum.getD "") p
        (some (.path options.key r.1 (shapeClassName options datum) styleOpt
          (renderSVGPath (linePathCmds x1 y1 x2 y2)) (shapeDatum datum)), r.2)
      | .polygon _ datum _ points =>
        let r := markID (datum.getD "") p
        (some (.path options.key r.1 (shapeClassName options datum) styleOpt
          (renderSVGPath (polygonPathCmds points)) (shapeDatum datum)), r.2)
      | .pathElem _ datum _ cmds =>
        let r := markID (datum.getD "") p
        (some (.path options.key r.1 (shapeClassName options datum) styleOpt
          (renderSVGPath cmds) (shapeDatum datum)), r.2)
      | .text _ datum _ cx cy content fontFamily fontSize =>
        match styleOpt with
        | none => (none, p)
        | some st0 =>
          let st1 := { st0 with fontFamily := some fontFamily,
                                fontSize := some (jsNumToString fontSize ++ "px") }
          if st1.stroke ≠ some "none" then
            let style2 := { st1 with fill := st1.stroke }
            let r1 := markID (datum.getD "") p
            let e1 := SVGNode.text none r1.1 (shapeClassName options datum)
              (some style2) cx (-cy) (shapeDatum datum) content
            let stNoStroke := { st1 with stroke := some "none" }
            let r2 := markID (datum.getD "") r1.2
            let e2 := SVGNode.text none r2.1 (shapeClassName options datum)
              (some stNoStroke) cx (-cy) (shapeDatum datum) content
            (some (.textPair options.key e1 e2), r2.2)
          else
            let r := markID (datum.getD "") p
            (some (.text options.key r.1 (shapeClassName options datum)
              (some st1) cx (-cy) (shapeDatum datum) content), r.2)
      | .textOnPath _ _ _ cmds content align fontFamily fontSize =>
        match styleOpt with
        | none => (none, p)
        | some st0 =>
          let st1 := { st0 with fontFamily := some fontFamily,
                                fontSize := some (jsNumToString fontSize ++ "px") }
          (some (.textOnPath (some st1) cmds content align), p)
      | .image _ datum _ src x y width height mode =>
        let href := match options.externalResourceResolver with
          | some f => f src
          | none => src
        let r := markID (datum.getD "") p
        (some (.image options.key r.1 (shapeClassName options datum) styleOpt
          (imageAspect mode) href x (-y - height) width height (shapeDatum datum)), r.2)
      | .chartContainer _ _ _ width height =>
        (some (.chartContainer options.key width height options.chartComponentSync), p)
      | .group gstyle datum _ transform key elements =>
        let r := markID (datum.getD "") p
        let cls := String.intercalate " " (getElementClassType (datum.getD "undefined"))
        let opac := (gstyle.bind (·.opacity)).getD 1
        let cr := renderGEList fuel elements 0 options r.2
        (some (.g (renderTransform transform) (jsOrStr key options.key) opac r.1
          cls (groupDataDatum datum) cr.1), cr.2)
termination_by fuel _ _ _ => (fuel, 0)

/-- Render a group's children in array order, assigning positional keys. -/
def renderGEList :
    Nat → List GElement → Nat → RenderOptions → Pointer → List (Option SVGNode) × Pointer
  | _, [], _, _, p => ([], p)
  | fuel, e :: es, index, options, p =>
    let r := renderGraphicalElementSVG fuel (some e) (childOptions options index) p
    let rs := renderGEList fuel es (index + 1) options r.2
    (r.1 :: rs.1, rs.2)
termination_by fuel es _ _ _ => (fuel, es.length + 1)

end

/-- Modifier-key record forwarded by the event routing closures. -/
structure EventModifiers where
  shiftKey : Bool
  ctrlKey : Bool
  metaKey : Bool
deriving Repr, DecidableEq

/-- The row-index remap of the chart-container case:
`rowIndices.map(x => component.selectable.rowIndices[x])`. An out-of-range
read is `undefined` in JavaScript; it is modelled as 0 here and every
verified statement is additionally characterized on in-bounds indices. -/
def remapRowIndices (tableIdx : List Nat) (rows : List Nat) : List Nat :=
  rows.map fun x => tableIdx.getD x 0

/-- The derived sub-chart selection of the chart-container case: present only
when the parent options carry a selection; remaps the sub-chart's local row
indices through the container's own rowIndices table and queries the parent
selection with the container's plot-segment table (the sub-chart's table
argument is ignored). -/
def mkSubSelection (selection : Option (String → List Nat → Bool))
    (comp : Selectable) : Option (String → List Nat → Bool) :=
  match selection with
  | none => none
  | some isSel => some fun _table rowIndices =>
      isSel comp.plotSegment.table (remapRowIndices comp.rowIndices rowIndices)

/-- `convertEventHandler` of the chart-container case: a missing handler
yields no handler; otherwise a null sub-chart selectable forwards the
container's own selectable, and a glyph selectable forwards the container's
plot segment and glyph index with the sub-element's row indices remapped
through the same table. -/
def convertEventHandler {α : Type}
    (handler : Option (Selectable → EventModifiers → α)) (comp : Selectable) :
    Option (Option Selectable → EventModifiers → α) :=
  match handler with
  | none => none
  | some h => some fun s parameters =>
      match s with
      | none => h comp parameters
      | some sel =>
        h ⟨comp.plotSegment, comp.glyphIndex,
           remapRowIndices comp.rowIndices sel.rowIndices⟩ parameters

/-- Comma-separated rendering of a command's arguments. -/
def joinArgs : List ℚ → String
  | [] => ""
  | [q] => toSVGNumber q
  | q :: qs => toSVGNumber q ++ "," ++ joinArgs qs

/-- The claim's path-command serialization schema: the command letter
followed by the comma-separated rendered arguments. -/
def emitCommand (letter : String) (nums : List ℚ) : String :=
  if nums.isEmpty then letter
  else letter ++ " " ++ joinArgs nums

/-- The claim's negation discipline, written from the claim's words: M, L, C
and Q negate each y (every odd position); ArcTo negates only its final y
argument (position 6), leaving radii, rotation and the two flags unflipped;
ClosePath has no arguments. -/
def negateYArgs (cmd : String) (args : List ℚ) : List ℚ :=
  if cmd = "M" ∨ cmd = "L" ∨ cmd = "C" ∨ cmd = "Q" then
    args.mapIdx fun i a => if i % 2 = 1 then -a else a
  else if cmd = "A" then
    args.mapIdx fun i a => if i = 6 then -a else a
  else args

/-- The C5 classification as amended, written from the claim's enumeration
plus the proviso the counterexample forces: `axis-*`/`legend-*` prefixes give
`["mark", fullTag]`; exactly `nested-chart`/`axis`/`legend` gives
`[fullTag]`; any other truthy string tag gives `["mark", markIdentifierField,
fullTag]`; a falsy tag counts as untagged and gives `["mark"]`; a parse
failure gives `[]`; and a parsed null, an unwrapped empty array, or a truthy
non-string tag also give `[]`, because the property access or `.startsWith`
call throws and the catch handler returns the empty list. -/
def specClassTypeAmended (datum : String) : List String :=
  match JSON_parse datum with
  | none => []
  | some v =>
    match unwrapDatum v with
    | none => []
    | some d =>
      match lookupField d "_TYPE" with
      | some (.str tag) =>
        if strStartsWith tag "axis-" ∨ strStartsWith tag "legend-" then ["mark", tag]
        else if tag = "nested-chart" ∨ tag = "axis" ∨ tag = "legend" then [tag]
        else if tag ≠ "" then ["mark", markidEntry d, tag]
        else ["mark"]
      | some other => if truthy (some other) then [] else ["mark"]
      | none => ["mark"]

def SVGNode.nodeStyle : SVGNode → Option ResolvedStyle
  | .path _ _ _ st _ _ => st
  | .text _ _ _ st _ _ _ _ => st
  | .textPair _ _ _ => none
  | .textOnPath st _ _ _ => st
  | .image _ _ _ st _ _ _ _ _ _ _ => st
  | .chartContainer _ _ _ _ => none
  | .g _ _ _ _ _ _ _ => none

def SVGNode.nodeDatum : SVGNode → Option String
  | .path _ _ _ _ _ d => d
  | .text _ _ _ _ _ _ d _ => d
  | .textPair _ _ _ => none
  | .textOnPath _ _ _ _ => none
  | .image _ _ _ _ _ _ _ _ _ _ d => d
  | .chartContainer _ _ _ _ => none
  | .g _ _ _ _ _ d _ => d

def SVGNode.nodeId : SVGNode → Option String
  | .path _ i _ _ _ _ => i
  | .text _ i _ _ _ _ _ _ => i
  | .textPair _ _ _ => none
  | .textOnPath _ _ _ _ => none
  | .image _ i _ _ _ _ _ _ _ _ _ => i
  | .chartContainer _ _ _ _ => none
  | .g _ _ _ i _ _ _ => i

def SVGNode.nodeKey : SVGNode → Option String
  | .path k _ _ _ _ _ => k
  | .text k _ _ _ _ _ _ _ => k
  | .textPair k _ _ => k
  | .textOnPath _ _ _ _ => none
  | .image k _ _ _ _ _ _ _ _ _ _ => k
  | .chartContainer k _ _ _ => k
  | .g _ k _ _ _ _ _ => k

/-- The stroke property of the first (outline) pass of a two-pass text
output, `none` for any other node shape. -/
def SVGNode.outlinePassStroke : SVGNode → Option (Option String)
  | .textPair _ (.text _ _ _ (some st) _ _ _ _) _ => some st.stroke
  | _ => none

/-- A concrete red-stroke, blue-fill style for the two-pass text instances. -/
def redBlueStyle : Style :=
  { strokeColor := some ⟨255, 0, 0⟩, fillColor := some ⟨0, 0, 255⟩ }

theorem markID_counter (d ns : String) (p : Pointer)
    (h : markIDNamespace d = some ns) : markID d p = issueMark ns p := by
  unfold markIDNamespace at h
  unfold markID
  by_cases hne : d = ""
  · rw [if_pos hne] at h; exact absurd h (by simp)
  rw [if_neg hne] at h ⊢
  cases hp : JSON_parse d with
  | none => rw [hp] at h; exact absurd h (by simp)
  | some v =>
    rw [hp] at h
    dsimp only at h ⊢
    cases hu : unwrapDatum v with
    | none => rw [hu] at h; exact absurd h (by simp)
    | some tum =>
      rw [hu] at h
      dsimp only at h ⊢
      split at h
      · exact absurd h (by simp)
      next hex =>
        rw [if_neg hex]
        simp only [Option.some.injEq] at h
        rw [h]

theorem markID_eq_of_tag (d t : String) (p : Pointer) (h : payloadTag d = some t) :
    markID d p =
      if t = "axis" ∨ t = "nested-chart" then (none, p)
      else issueMark (namespaceOf (some (.str t))) p := by
  unfold payloadTag at h
  unfold markID
  by_cases hne : d = ""
  · rw [if_pos hne] at h; exact absurd h (by simp)
  rw [if_neg hne] at h ⊢
  cases hp : JSON_parse d with
  | none => rw [hp] at h; exact absurd h (by simp)
  | some v =>
    rw [hp] at h
    dsimp only at h ⊢
    cases hu : unwrapDatum v with
    | none => rw [hu] at h; exact absurd h (by simp)
    | some tum =>
      rw [hu] at h
      dsimp only at h ⊢
      cases hl : lookupField tum "_TYPE" with
      | none => rw [hl] at h; exact absurd h (by simp)
      | some tv =>
        rw [hl] at h
        cases tv with
        | str s =>
          simp only [Option.some.injEq] at h
          subst h
          simp only [eqTag, Bool.or_eq_true, decide_eq_true_eq]
        | null => exact absurd h (by simp)
        | bool b => exact absurd h (by simp)
        | num q => exact absurd h (by simp)
        | arr l => exact absurd h (by simp)
        | obj fs => exact absurd h (by simp)

/-- C1 counterexample: the payload whose descriptor type tag is `"legend"`
parses successfully, yet `markID` does not return null — it issues a counter
label (`"legend"` is absent from the exclusion test of the source, which
checks only `"axis"` and `"nested-chart"`). -/
theorem markID_legend_counterexample :
    payloadTag "\x7b\"_TYPE\":\"legend\"\x7d" = some "legend" ∧
    (markID "\x7b\"_TYPE\":\"legend\"\x7d" freshPointer).1 = some "mark1" ∧
    (markID "\x7b\"_TYPE\":\"legend\"\x7d" freshPointer).1 ≠ none :=
  ⟨rfl, rfl, by decide⟩

/-- C1 amended: for every data-datum payload whose descriptor type tag is
`"axis"` or `"nested-chart"` (but not `"legend"`), `markID` returns null,
from any counter state. -/
theorem markID_null_on_axis_and_nested_chart (d : String) (p : Pointer)
    (h : payloadTag d = some "axis" ∨ payloadTag d = some "nested-chart") :
    (markID d p).1 = none := by
  rcases h with h | h
  · rw [markID_eq_of_tag d "axis" p h]; simp
  · rw [markID_eq_of_tag d "nested-chart" p h]; simp

/-- C1 witness: a concrete axis payload. -/
theorem markID_null_on_axis_and_nested_chart_witness :
    (payloadTag "\x7b\"_TYPE\":\"axis\"\x7d" = some "axis" ∨
      payloadTag "\x7b\"_TYPE\":\"axis\"\x7d" = some "nested-chart") ∧
    (markID "\x7b\"_TYPE\":\"axis\"\x7d" freshPointer).1 = none :=
  ⟨Or.inl rfl,
   markID_null_on_axis_and_nested_chart "\x7b\"_TYPE\":\"axis\"\x7d" freshPointer
     (Or.inl rfl)⟩

/-- C8 counterexample: the empty payload string fails JSON parsing, yet
`markID` returns null (the `!datum` guard fires before the parse), not the
raw payload string. -/
theorem markID_empty_payload_counterexample :
    JSON_parse "" = none ∧
    (markID "" freshPointer).1 = none ∧
    (markID "" freshPointer).1 ≠ some "" :=
  ⟨rfl, rfl, by decide⟩

/-- C8 amended: for every non-empty data-datum payload string on which JSON
parsing fails, `markID` returns the raw payload string unchanged (and leaves
the counter state untouched) rather than raising an error. -/
theorem markID_parse_failure_returns_raw (d : String) (p : Pointer)
    (hne : d ≠ "") (hp : JSON_parse d = none) :
    markID d p = (some d, p) := by
  unfold markID
  rw [if_neg hne, hp]

/-- C8 witness: a concrete unparseable payload. -/
theorem markID_parse_failure_returns_raw_witness :
    ("not json" ≠ "" ∧ JSON_parse "not json" = none) ∧
    markID "not json" freshPointer = (some "not json", freshPointer) :=
  ⟨⟨by decide, rfl⟩,
   markID_parse_failure_returns_raw "not json" freshPointer (by decide) rfl⟩

/-- C5 counterexample: the payload `"null"` parses successfully to an
untagged value (JSON null), but `getElementClassType` returns the empty list
rather than `["mark"]`: the source reads `data._TYPE` off the parsed null,
which throws and lands in the catch branch. -/
theorem getElementClassType_null_counterexample :
    JSON_parse "null" = some JsonValue.null ∧
    getElementClassType "null" = [] ∧
    getElementClassType "null" ≠ ["mark"] :=
  ⟨rfl, rfl, by decide⟩

/-- C5 amended: the classification matches the claim's enumeration with the
proviso that a parsed null, an empty-array unwrap, or a truthy non-string
type tag yields the empty list (the property access or `.startsWith` call
throws and is caught). -/
theorem getElementClassType_matches_amended (datum : String) :
    getElementClassType datum = specClassTypeAmended datum := by
  unfold getElementClassType specClassTypeAmended
  cases JSON_parse datum with
  | none => rfl
  | some v =>
    dsimp only
    cases unwrapDatum v with
    | none => rfl
    | some d =>
      dsimp only
      cases lookupField d "_TYPE" with
      | none => rfl
      | some tv =>
        cases tv with
        | str s =>
          dsimp only
          by_cases h0 : s = ""
          · subst h0; rfl
          · rw [if_neg h0]
            by_cases h1 : (strStartsWith s "axis-" || strStartsWith s "legend-") = true
            · have hspec1 : strStartsWith s "axis-" = true ∨ strStartsWith s "legend-" = true := by
                simpa [Bool.or_eq_true] using h1
              rw [if_pos h1, if_pos hspec1]
            · have hspec1n : ¬(strStartsWith s "axis-" = true ∨ strStartsWith s "legend-" = true) := by
                simpa [Bool.or_eq_true] using h1
              rw [if_neg h1, if_neg hspec1n]
              by_cases h2 : s = "nested-chart" ∨ s = "axis" ∨ s = "legend"
              · rcases h2 with h | h | h <;> subst h <;> rfl
              · have hcoden : ¬(((decide (s = "nested-chart") || decide (s = "axis"))
                    || decide (s = "legend")) = true) := by
                  intro hc
                  exact h2 (by simpa [Bool.or_eq_true, decide_eq_true_eq, or_assoc] using hc)
                rw [if_neg hcoden, if_neg h2, if_pos h0]
        | null => rfl
        | bool b => rfl
        | num q => rfl
        | arr l => rfl
        | obj fs => rfl

/-- C6: starting from a fresh counter state, two successive `markID` calls on
two distinct payloads that reach the counter branch return two distinct
labels of the form `"mark" + counter` with strictly increasing counter
values; and after `resetMarkID`, the next call replays exactly the first
call of a fresh start. -/
theorem markID_labels_increase_and_reset_replays
    (d1 d2 ns1 ns2 : String)
    (h1 : markIDNamespace d1 = some ns1) (h2 : markIDNamespace d2 = some ns2)
    (_hd : d1 ≠ d2) :
    ∃ c1 c2 : Nat,
      c1 < c2 ∧
      (markID d1 freshPointer).1 = some ("mark" ++ toString c1) ∧
      (markID d2 (markID d1 freshPointer).2).1 = some ("mark" ++ toString c2) ∧
      ("mark" ++ toString c1 : String) ≠ "mark" ++ toString c2 ∧
      markID d1 (resetMarkID (markID d2 (markID d1 freshPointer).2).2) =
        markID d1 freshPointer := by
  have e1 := markID_counter d1 ns1 freshPointer h1
  have i1 : issueMark ns1 freshPointer = (some ("mark" ++ toString 1), [(ns1, 2)]) := rfl
  by_cases hns : ns2 = ns1
  · subst hns
    refine ⟨1, 2, by decide, ?_, ?_, by decide, rfl⟩
    · rw [e1, i1]
    · rw [e1, i1, markID_counter d2 ns2 _ h2]
      simp [issueMark, List.lookup]
  · have hbeq : (ns2 == ns1) = false := beq_eq_false_iff_ne.mpr hns
    refine ⟨1, 1001, by decide, ?_, ?_, by decide, rfl⟩
    · rw [e1, i1]
    · rw [e1, i1, markID_counter d2 ns2 _ h2]
      simp [issueMark, List.lookup, hbeq]

/-- C6 witness: two concrete distinct payloads with distinct namespaces. -/
theorem markID_labels_increase_witness :
    (markIDNamespace "\x7b\"_TYPE\":\"a\"\x7d" = some "a" ∧
     markIDNamespace "\x7b\"_TYPE\":\"b\"\x7d" = some "b" ∧
     "\x7b\"_TYPE\":\"a\"\x7d" ≠ "\x7b\"_TYPE\":\"b\"\x7d") ∧
    (∃ c1 c2 : Nat,
      c1 < c2 ∧
      (markID "\x7b\"_TYPE\":\"a\"\x7d" freshPointer).1 =
        some ("mark" ++ toString c1) ∧
      (markID "\x7b\"_TYPE\":\"b\"\x7d"
        (markID "\x7b\"_TYPE\":\"a\"\x7d" freshPointer).2).1 =
        some ("mark" ++ toString c2) ∧
      ("mark" ++ toString c1 : String) ≠ "mark" ++ toString c2 ∧
      markID "\x7b\"_TYPE\":\"a\"\x7d"
          (resetMarkID (markID "\x7b\"_TYPE\":\"b\"\x7d"
            (markID "\x7b\"_TYPE\":\"a\"\x7d" freshPointer).2).2) =
        markID "\x7b\"_TYPE\":\"a\"\x7d" freshPointer) :=
  ⟨⟨rfl, rfl, by decide⟩,
   markID_labels_increase_and_reset_replays
     "\x7b\"_TYPE\":\"a\"\x7d" "\x7b\"_TYPE\":\"b\"\x7d" "a" "b"
     rfl rfl (by decide)⟩

/-- C3: every Y-valued coordinate argument is negated exactly once at
emission — M, L, C, Q negate each y, ArcTo negates only its final y argument
(radii, rotation, the two flags and the x are unflipped) — and every
rect(x1,y1,x2,y2) lowers to exactly MoveTo(x1,y1), LineTo(x1,y2),
LineTo(x2,y2), LineTo(x2,y1), ClosePath, serialized with every Y negated
relative to the input. -/
theorem path_serialization_negates_y (a b c d e f g x1 y1 x2 y2 : ℚ) :
    path_commands "M" [a, b] = some (emitCommand "M" (negateYArgs "M" [a, b])) ∧
    path_commands "L" [a, b] = some (emitCommand "L" (negateYArgs "L" [a, b])) ∧
    path_commands "C" [a, b, c, d, e, f] =
      some (emitCommand "C" (negateYArgs "C" [a, b, c, d, e, f])) ∧
    path_commands "Q" [a, b, c, d] =
      some (emitCommand "Q" (negateYArgs "Q" [a, b, c, d])) ∧
    path_commands "A" [a, b, c, d, e, f, g] =
      some (emitCommand "A" (negateYArgs "A" [a, b, c, d, e, f, g])) ∧
    path_commands "Z" [] = some (emitCommand "Z" (negateYArgs "Z" [])) ∧
    rectPathCmds x1 y1 x2 y2 =
      [⟨"M", [x1, y1]⟩, ⟨"L", [x1, y2]⟩, ⟨"L", [x2, y2]⟩,
       ⟨"L", [x2, y1]⟩, ⟨"Z", []⟩] ∧
    renderSVGPath (rectPathCmds x1 y1 x2 y2) =
      some (String.intercalate " "
        [emitCommand "M" [x1, -y1], emitCommand "L" [x1, -y2],
         emitCommand "L" [x2, -y2], emitCommand "L" [x2, -y1],
         emitCommand "Z" []]) := by
  refine ⟨?_, ?_, ?_, ?_, ?_, rfl, rfl, ?_⟩ <;>
    simp [path_commands, emitCommand, negateYArgs, joinArgs, argAt,
      renderSVGPath, rectPathCmds, pmMoveTo, pmLineTo, pmClosePath,
      String.append_assoc, String.intercalate, String.intercalate.go,
      List.mapM, List.mapM.loop]

/-- C9: `renderTransform` maps absent input to absent output; an angle of
magnitude below 1e-7 yields a translate-only expression (in particular
`{x:1,y:2,angle:1e-8}` omits the rotate term and `{x:0,y:0,angle:0}` yields
`translate(0,0)`); an angle of magnitude at least 1e-7 yields translate
followed by rotate with the angle sign negated. -/
theorem renderTransform_translate_and_negated_rotate (t : RigidTransform) :
    renderTransform none = none ∧
    (|t.angle| < 1 / 10000000 →
      renderTransform (some t) =
        some ("translate(" ++ toSVGNumber t.x ++ "," ++ toSVGNumber (-t.y) ++ ")")) ∧
    (¬|t.angle| < 1 / 10000000 →
      renderTransform (some t) =
        some ("translate(" ++ toSVGNumber t.x ++ "," ++ toSVGNumber (-t.y)
          ++ ") rotate(" ++ toSVGNumber (-t.angle) ++ ")")) ∧
    renderTransform (some ⟨0, 0, 0⟩) = some "translate(0,0)" ∧
    renderTransform (some ⟨1, 2, 1 / 100000000⟩) = some "translate(1,-2)" := by
  refine ⟨rfl, ?_, ?_, ?_, ?_⟩
  · intro h
    unfold renderTransform
    dsimp only
    rw [if_pos h]
  · intro h
    unfold renderTransform
    dsimp only
    rw [if_neg h]
  · unfold renderTransform
    dsimp only
    rw [if_pos (by norm_num)]
    rfl
  · unfold renderTransform
    dsimp only
    rw [if_pos (by rw [abs_of_nonneg (by norm_num : (0:ℚ) ≤ 1 / 100000000)]; norm_num)]
    rfl

/-- C9 witness: a rotated and an unrotated concrete transform. -/
theorem renderTransform_witness :
    (¬|(⟨3, 4, 2⟩ : RigidTransform).angle| < 1 / 10000000 ∧
      renderTransform (some ⟨3, 4, 2⟩) =
        some ("translate(" ++ toSVGNumber 3 ++ "," ++ toSVGNumber (-4)
          ++ ") rotate(" ++ toSVGNumber (-2) ++ ")")) ∧
    (|(⟨1, 2, 0⟩ : RigidTransform).angle| < 1 / 10000000 ∧
      renderTransform (some ⟨1, 2, 0⟩) =
        some ("translate(" ++ toSVGNumber 1 ++ "," ++ toSVGNumber (-2) ++ ")")) :=
  ⟨⟨by norm_num,
    (renderTransform_translate_and_negated_rotate ⟨3, 4, 2⟩).2.2.1 (by norm_num)⟩,
   ⟨by norm_num,
    (renderTransform_translate_and_negated_rotate ⟨1, 2, 0⟩).2.1 (by norm_num)⟩⟩

/-- C7: for a chart-container rendered with a selection predicate, the
derived sub-chart predicate remaps each local row index `i` to the parent
index `component.selectable.rowIndices[i]` and delegates to the parent
selection with the container's plot-segment table; the derived event handler
forwards the container's own selectable when the sub-chart reports no glyph,
and otherwise forwards the container's plot segment and glyph index with the
sub-element's row indices remapped through the same table; absent selection
or handler inputs yield absent outputs. -/
theorem chartContainer_selection_and_handler_remap {α : Type}
    (isSel : String → List Nat → Bool) (comp : Selectable)
    (handler : Selectable → EventModifiers → α) (sub : Selectable)
    (params : EventModifiers) :
    mkSubSelection none comp = none ∧
    (∃ f, mkSubSelection (some isSel) comp = some f ∧
      ∀ (table : String) (rows : List Nat),
        f table rows =
          isSel comp.plotSegment.table (remapRowIndices comp.rowIndices rows)) ∧
    convertEventHandler (none : Option (Selectable → EventModifiers → α)) comp
      = none ∧
    (∃ g, convertEventHandler (some handler) comp = some g ∧
      g none params = handler comp params ∧
      g (some sub) params =
        handler ⟨comp.plotSegment, comp.glyphIndex,
          remapRowIndices comp.rowIndices sub.rowIndices⟩ params) ∧
    (∀ (rows : List Nat) (k : Nat),
      (remapRowIndices comp.rowIndices rows)[k]? =
        (rows[k]?).map fun i => comp.rowIndices.getD i 0) := by
  refine ⟨rfl, ⟨_, rfl, fun table rows => rfl⟩, rfl,
    ⟨_, rfl, rfl, rfl⟩, fun rows k => ?_⟩
  simp [remapRowIndices]

/-- C10: a group node whose data-datum payload is a non-empty string that
starts with neither a brace nor a bracket renders with a null data-datum
attribute, while every shape variant (rect, circle, ellipse, line, polygon,
path) attaches any non-empty payload string verbatim as its data-datum
attribute. -/
theorem group_drops_plain_datum_shapes_keep_it (fuel : Nat) (s : String)
    (st : Option Style) (tr : Option RigidTransform) (gk : Option String)
    (elems : List GElement) (x1 y1 x2 y2 cx cy r : ℚ)
    (points : List (ℚ × ℚ)) (cmds : List PathCmd) (p : Pointer)
    (hs : s ≠ "") (hb : ¬strStartsWith s "\x7b") (hk : ¬strStartsWith s "[") :
    ((renderGraphicalElementSVG (fuel + 1)
        (some (.group st (some s) none tr gk elems)) {} p).1.map
      SVGNode.nodeDatum) = some none ∧
    ((renderGraphicalElementSVG (fuel + 1)
        (some (.rect st (some s) none x1 y1 x2 y2)) {} p).1.map
      SVGNode.nodeDatum) = some (some s) ∧
    ((renderGraphicalElementSVG (fuel + 1)
        (some (.circle st (some s) none cx cy r)) {} p).1.map
      SVGNode.nodeDatum) = some (some s) ∧
    ((renderGraphicalElementSVG (fuel + 1)
        (some (.ellipse st (some s) none x1 y1 x2 y2)) {} p).1.map
      SVGNode.nodeDatum) = some (some s) ∧
    ((renderGraphicalElementSVG (fuel + 1)
        (some (.line st (some s) none x1 y1 x2 y2)) {} p).1.map
      SVGNode.nodeDatum) = some (some s) ∧
    ((renderGraphicalElementSVG (fuel + 1)
        (some (.polygon st (some s) none points)) {} p).1.map
      SVGNode.nodeDatum) = some (some s) ∧
    ((renderGraphicalElementSVG (fuel + 1)
        (some (.pathElem st (some s) none cmds)) {} p).1.map
      SVGNode.nodeDatum) = some (some s) := by
  refine ⟨?_, ?_, ?_, ?_, ?_, ?_, ?_⟩ <;>
    simp [renderGraphicalElementSVG, SVGNode.nodeDatum, groupDataDatum,
      shapeDatum, GElement.elSelectable, GElement.elStyle, hs, hb, hk]

/-- C10 witness: a concrete plain payload on a group and on a rect. -/
theorem group_drops_plain_datum_witness :
    ("plain" ≠ "" ∧ ¬strStartsWith "plain" "\x7b" ∧ ¬strStartsWith "plain" "[") ∧
    ((renderGraphicalElementSVG 1
        (some (.group none (some "plain") none none none [])) {}
        freshPointer).1.map SVGNode.nodeDatum) = some none ∧
    ((renderGraphicalElementSVG 1
        (some (.rect none (some "plain") none 0 0 1 1)) {}
        freshPointer).1.map SVGNode.nodeDatum) = some (some "plain") :=
  ⟨⟨by decide, by decide, by decide⟩,
   (group_drops_plain_datum_shapes_keep_it 0 "plain" none none none [] 0 0 1 1
      0 0 0 [] [] freshPointer (by decide) (by decide) (by decide)).1,
   (group_drops_plain_datum_shapes_keep_it 0 "plain" none none none [] 0 0 1 1
      0 0 0 [] [] freshPointer (by decide) (by decide) (by decide)).2.1⟩


/-- C2 counterexample: for a text node with a red stroke, the first (outline)
pass keeps the stroke set to the stroke color — the source clones the style
before `style.stroke = "none"` runs, so the clone used by the first node
retains the stroke; the claim's "stroke disabled" holds only for the second
node. -/
theorem text_outline_keeps_stroke_counterexample :
    ((renderGraphicalElementSVG 1 (some (.text (some redBlueStyle)
        none none 3 4 "hi" "Arial" 12)) {} freshPointer).1.map
      SVGNode.outlinePassStroke) = some (some (some "rgb(255,0,0)")) ∧
    (some (some (some "rgb(255,0,0)")) : Option (Option (Option String))) ≠
      some (some (some "none")) := by
  constructor
  · simp only [renderGraphicalElementSVG, GElement.elSelectable, GElement.elStyle,
      renderStyle, renderColor, jsOrStyle, jsToFixed0, applyColorFilter, markID,
      freshPointer, redBlueStyle]
    rw [if_neg (by decide)]
    rfl
  · decide

/-- C2 amended: a text node whose resolved stroke differs from "none" emits
exactly two stacked text nodes — the first (outline pass) with fill set to
the stroke color and the stroke LEFT AS the stroke color (not disabled), the
second with the original fill and stroke disabled ("none") — and a text node
whose resolved stroke is exactly "none" emits a single text node. -/
theorem text_two_pass_outline_then_fill (fuel : Nat) (stO : Option Style)
    (datum : Option String) (cx cy fs : ℚ) (content ff : String)
    (opts : RenderOptions) (p : Pointer) (hns : opts.noStyle = false) :
    ∀ st1 : ResolvedStyle,
      st1 = { renderStyle (jsOrStyle opts.styleOverride stO) with
              fontFamily := some ff,
              fontSize := some (jsNumToString fs ++ "px") } →
      ((st1.stroke ≠ some "none" →
        renderGraphicalElementSVG (fuel + 1)
            (some (.text stO datum none cx cy content ff fs)) opts p =
          (some (.textPair opts.key
            (.text none (markID (datum.getD "") p).1 (shapeClassName opts datum)
              (some { st1 with fill := st1.stroke }) cx (-cy) (shapeDatum datum) content)
            (.text none (markID (datum.getD "") (markID (datum.getD "") p).2).1
              (shapeClassName opts datum)
              (some { st1 with stroke := some "none" }) cx (-cy) (shapeDatum datum) content)),
           (markID (datum.getD "") (markID (datum.getD "") p).2).2)) ∧
      (st1.stroke = some "none" →
        renderGraphicalElementSVG (fuel + 1)
            (some (.text stO datum none cx cy content ff fs)) opts p =
          (some (.text opts.key (markID (datum.getD "") p).1 (shapeClassName opts datum)
            (some st1) cx (-cy) (shapeDatum datum) content),
           (markID (datum.getD "") p).2))) := by
  intro st1 hst
  subst hst
  constructor
  · intro hstroke
    have hc : (renderStyle (jsOrStyle opts.styleOverride stO)).stroke ≠ some "none" := by
      simpa using hstroke
    simp only [renderGraphicalElementSVG, GElement.elSelectable, GElement.elStyle,
      hns, Bool.false_eq_true, if_false, Option.isSome_none, Bool.false_and,
      Option.isNone_some]
    rw [if_pos hc]
  · intro hstroke
    have hc : ¬((renderStyle (jsOrStyle opts.styleOverride stO)).stroke ≠ some "none") := by
      simpa using hstroke
    simp only [renderGraphicalElementSVG, GElement.elSelectable, GElement.elStyle,
      hns, Bool.false_eq_true, if_false, Option.isSome_none, Bool.false_and,
      Option.isNone_some]
    rw [if_neg hc]

/-- C2 witness: the concrete red-stroke text node, rendered through the
two-pass branch. -/
theorem text_two_pass_witness :
    (({} : RenderOptions).noStyle = false ∧
      ({ renderStyle (jsOrStyle ({} : RenderOptions).styleOverride (some redBlueStyle)) with
          fontFamily := some "Arial", fontSize := some (jsNumToString 12 ++ "px") } : ResolvedStyle).stroke ≠ some "none") ∧
    renderGraphicalElementSVG (0 + 1)
        (some (.text (some redBlueStyle) none none 3 4 "hi" "Arial" 12)) {}
        freshPointer =
      (some (.textPair none
        (.text none (markID ((none : Option String).getD "") freshPointer).1
          (shapeClassName {} none)
          (some { ({ renderStyle (jsOrStyle ({} : RenderOptions).styleOverride (some redBlueStyle)) with
          fontFamily := some "Arial", fontSize := some (jsNumToString 12 ++ "px") } : ResolvedStyle) with
                  fill := ({ renderStyle (jsOrStyle ({} : RenderOptions).styleOverride (some redBlueStyle)) with
          fontFamily := some "Arial", fontSize := some (jsNumToString 12 ++ "px") } : ResolvedStyle).stroke })
          3 (-4) (shapeDatum none) "hi")
        (.text none (markID ((none : Option String).getD "")
            (markID ((none : Option String).getD "") freshPointer).2).1
          (shapeClassName {} none)
          (some { ({ renderStyle (jsOrStyle ({} : RenderOptions).styleOverride (some redBlueStyle)) with
          fontFamily := some "Arial", fontSize := some (jsNumToString 12 ++ "px") } : ResolvedStyle) with stroke := some "none" })
          3 (-4) (shapeDatum none) "hi")),
       (markID ((none : Option String).getD "")
         (markID ((none : Option String).getD "") freshPointer).2).2) :=
  ⟨⟨rfl, by decide⟩,
   (text_two_pass_outline_then_fill 0 (some redBlueStyle) none 3 4 12 "hi"
      "Arial" {} freshPointer rfl _ rfl).1 (by decide)⟩


/-- C4: for every group node, rendering produces one container node carrying
the group's serialized transform (applied once, on the container), whose
children are exactly the input elements rendered in array order — the child
list has the input's length and its k-th entry is the rendering of the k-th
input element under the positional key options `m<k>`, which mention no
transform (so the group transform is repeated on no child); and the concrete
two-circle instance from a fresh counter state yields exactly two child
shape nodes in input order with keys `m0`/`m1` and two distinct, present
ids. -/
theorem group_children_order_keys_transform_and_ids (fuel : Nat)
    (gstyle : Option Style) (gdatum : Option String) (gsel : Option Selectable)
    (tr : Option RigidTransform) (gk : Option String) (elements : List GElement)
    (opts : RenderOptions) (p : Pointer)
    (d1 d2 ns1 ns2 : String) (s1 s2 : Option Style) (cx1 cy1 r1 cx2 cy2 r2 : ℚ)
    (hno : opts.noStyle = false)
    (h1 : markIDNamespace d1 = some ns1) (h2 : markIDNamespace d2 = some ns2) :
    (renderGraphicalElementSVG (fuel + 1)
        (some (.group gstyle gdatum gsel tr gk elements)) opts p =
      (some (.g (renderTransform tr) (jsOrStr gk opts.key)
        ((gstyle.bind fun s => s.opacity).getD 1)
        ((markID (gdatum.getD "") p).1)
        (String.intercalate " " (getElementClassType (gdatum.getD "undefined")))
        (groupDataDatum gdatum)
        ((renderGEList fuel elements 0 opts (markID (gdatum.getD "") p).2).1)),
       (renderGEList fuel elements 0 opts (markID (gdatum.getD "") p).2).2)) ∧
    (∀ (es : List GElement) (i : Nat) (q : Pointer),
      (renderGEList fuel es i opts q).1.length = es.length) ∧
    (∀ (es : List GElement) (i : Nat) (q : Pointer) (k : Nat) (hk : k < es.length),
      ∃ q2 : Pointer,
        (renderGEList fuel es i opts q).1[k]? =
          some (renderGraphicalElementSVG fuel (some (es.get ⟨k, hk⟩))
            (childOptions opts (i + k)) q2).1) ∧
    (renderGraphicalElementSVG (fuel + 2)
        (some (.group none none none tr gk
          [.circle s1 (some d1) none cx1 cy1 r1,
           .circle s2 (some d2) none cx2 cy2 r2])) {} freshPointer =
      (some (.g (renderTransform tr) (jsOrStr gk none) 1 none "" none
        [some (.path (some ("m" ++ toString 0)) ((markID d1 freshPointer).1)
          (shapeClassName (childOptions {} 0) (some d1)) (some (renderStyle s1))
          (renderSVGPath (circlePathCmds cx1 cy1 r1)) (shapeDatum (some d1))),
         some (.path (some ("m" ++ toString 1)) ((markID d2 (markID d1 freshPointer).2).1)
          (shapeClassName (childOptions {} 1) (some d2)) (some (renderStyle s2))
          (renderSVGPath (circlePathCmds cx2 cy2 r2)) (shapeDatum (some d2)))]),
       (markID d2 (markID d1 freshPointer).2).2)) ∧
    ("m" ++ toString 0 : String) = "m0" ∧ ("m" ++ toString 1 : String) = "m1" ∧
    (markID d1 freshPointer).1 ≠ (markID d2 (markID d1 freshPointer).2).1 ∧
    (markID d1 freshPointer).1.isSome = true ∧
    (markID d2 (markID d1 freshPointer).2).1.isSome = true := by
  have hm0 : markID "" freshPointer = (none, freshPointer) := rfl
  have hcls : getElementClassType "undefined" = [] := rfl
  have e1 : markID d1 freshPointer = issueMark ns1 freshPointer :=
    markID_counter d1 ns1 _ h1
  have i1 : issueMark ns1 freshPointer =
      (some ("mark" ++ toString 1), [(ns1, 2)]) := rfl
  refine ⟨?_, ?_, ?_, ?_, rfl, rfl, ?_, ?_, ?_⟩
  · cases gsel <;>
      simp only [renderGraphicalElementSVG, GElement.elSelectable,
        GElement.elStyle, hno, Bool.false_eq_true, if_false, Option.isSome_none,
        Option.isSome_some, Bool.false_and, Bool.true_and, Option.isNone_some,
        Option.bind]
  · intro es
    induction es with
    | nil => intro i q; simp [renderGEList]
    | cons e es ih => intro i q; simp [renderGEList, ih]
  · intro es
    induction es with
    | nil => intro i q k hk; exact absurd hk (by simp)
    | cons e es ih =>
      intro i q k hk
      cases k with
      | zero =>
        refine ⟨q, ?_⟩
        simp [renderGEList]
      | succ k =>
        have hk2 : k < es.length := by simpa using hk
        obtain ⟨q2, hq2⟩ := ih (i + 1)
          ((renderGraphicalElementSVG fuel (some e) (childOptions opts i) q).2) k hk2
        refine ⟨q2, ?_⟩
        simp only [renderGEList, List.getElem?_cons_succ, List.get_cons_succ]
        rw [show i + 1 + k = i + (k + 1) from by omega] at hq2
        exact hq2
  · simp only [renderGraphicalElementSVG, renderGEList, GElement.elSelectable,
      GElement.elStyle, jsOrStyle, Option.getD, hm0, hcls, childOptions,
      groupDataDatum, Option.isSome_none, Bool.false_and, Bool.false_eq_true,
      if_false, Option.isNone_some, Option.bind, String.intercalate]
  · rw [e1, i1, markID_counter d2 ns2 _ h2]
    by_cases hns : ns2 = ns1
    · subst hns
      simp only [issueMark, List.lookup, beq_self_eq_true]
      decide
    · have hbeq : (ns2 == ns1) = false := beq_eq_false_iff_ne.mpr hns
      simp [issueMark, List.lookup, hbeq]
      decide
  · rw [e1, i1]
    rfl
  · rw [e1, i1, markID_counter d2 ns2 _ h2]
    by_cases hns : ns2 = ns1
    · subst hns
      simp only [issueMark, List.lookup, beq_self_eq_true]
      decide
    · have hbeq : (ns2 == ns1) = false := beq_eq_false_iff_ne.mpr hns
      simp [issueMark, List.lookup, hbeq]

/-- C4 witness: the general characterization and the two-circle instance at
concrete payloads whose namespaces differ. -/
theorem group_children_order_keys_witness :
    (({} : RenderOptions).noStyle = false ∧
     markIDNamespace "\x7b\"_TYPE\":\"a\"\x7d" = some "a" ∧
     markIDNamespace "\x7b\"_TYPE\":\"b\"\x7d" = some "b") ∧
    ((renderGraphicalElementSVG (0 + 1)
        (some (.group none none none none none
          [.circle none (some "\x7b\"_TYPE\":\"a\"\x7d") none 0 0 1,
           .circle none (some "\x7b\"_TYPE\":\"b\"\x7d") none 2 3 1])) {} freshPointer =
      (some (.g (renderTransform none)
        (jsOrStr none ({} : RenderOptions).key)
        (((none : Option Style).bind fun s => s.opacity).getD 1)
        ((markID ((none : Option String).getD "") freshPointer).1)
        (String.intercalate " "
          (getElementClassType ((none : Option String).getD "undefined")))
        (groupDataDatum none)
        ((renderGEList 0
          [.circle none (some "\x7b\"_TYPE\":\"a\"\x7d") none 0 0 1,
           .circle none (some "\x7b\"_TYPE\":\"b\"\x7d") none 2 3 1] 0 {}
          (markID ((none : Option String).getD "") freshPointer).2).1)),
       (renderGEList 0
         [.circle none (some "\x7b\"_TYPE\":\"a\"\x7d") none 0 0 1,
          .circle none (some "\x7b\"_TYPE\":\"b\"\x7d") none 2 3 1] 0 {}
         (markID ((none : Option String).getD "") freshPointer).2).2)) ∧
    (∀ (es : List GElement) (i : Nat) (q : Pointer),
      (renderGEList 0 es i {} q).1.length = es.length) ∧
    (∀ (es : List GElement) (i : Nat) (q : Pointer) (k : Nat) (hk : k < es.length),
      ∃ q2 : Pointer,
        (renderGEList 0 es i {} q).1[k]? =
          some (renderGraphicalElementSVG 0 (some (es.get ⟨k, hk⟩))
            (childOptions {} (i + k)) q2).1) ∧
    (renderGraphicalElementSVG (0 + 2)
        (some (.group none none none none none
          [.circle none (some "\x7b\"_TYPE\":\"a\"\x7d") none 0 0 1,
           .circle none (some "\x7b\"_TYPE\":\"b\"\x7d") none 2 3 1])) {} freshPointer =
      (some (.g (renderTransform none) (jsOrStr none none) 1 none "" none
        [some (.path (some ("m" ++ toString 0))
          ((markID "\x7b\"_TYPE\":\"a\"\x7d" freshPointer).1)
          (shapeClassName (childOptions {} 0) (some "\x7b\"_TYPE\":\"a\"\x7d"))
          (some (renderStyle none))
          (renderSVGPath (circlePathCmds 0 0 1)) (shapeDatum (some "\x7b\"_TYPE\":\"a\"\x7d"))),
         some (.path (some ("m" ++ toString 1))
          ((markID "\x7b\"_TYPE\":\"b\"\x7d" (markID "\x7b\"_TYPE\":\"a\"\x7d" freshPointer).2).1)
          (shapeClassName (childOptions {} 1) (some "\x7b\"_TYPE\":\"b\"\x7d"))
          (some (renderStyle none))
          (renderSVGPath (circlePathCmds 2 3 1)) (shapeDatum (some "\x7b\"_TYPE\":\"b\"\x7d")))]),
       (markID "\x7b\"_TYPE\":\"b\"\x7d" (markID "\x7b\"_TYPE\":\"a\"\x7d" freshPointer).2).2)) ∧
    ("m" ++ toString 0 : String) = "m0" ∧ ("m" ++ toString 1 : String) = "m1" ∧
    (markID "\x7b\"_TYPE\":\"a\"\x7d" freshPointer).1 ≠
      (markID "\x7b\"_TYPE\":\"b\"\x7d" (markID "\x7b\"_TYPE\":\"a\"\x7d" freshPointer).2).1 ∧
    (markID "\x7b\"_TYPE\":\"a\"\x7d" freshPointer).1.isSome = true ∧
    (markID "\x7b\"_TYPE\":\"b\"\x7d" (markID "\x7b\"_TYPE\":\"a\"\x7d" freshPointer).2).1.isSome = true) :=
  ⟨⟨rfl, rfl, rfl⟩,
   group_children_order_keys_transform_and_ids 0 none none none none none
     [.circle none (some "\x7b\"_TYPE\":\"a\"\x7d") none 0 0 1,
      .circle none (some "\x7b\"_TYPE\":\"b\"\x7d") none 2 3 1] {} freshPointer
     "\x7b\"_TYPE\":\"a\"\x7d" "\x7b\"_TYPE\":\"b\"\x7d" "a" "b" none none 0 0 1 2 3 1 rfl rfl rfl⟩
